import Mathlib

/-!
Verification of the startup-resource-allocation scoring pipeline (src/app.py).

The core pipeline — CSV table handling, row validation, weighted priority
scoring, categorization, explanation tags, ranking and summary — is embedded
shallowly.  Python floats are modelled by `PyFloat` (an exact rational plus
the special values `inf`, `-inf` and `nan`, with Python's comparison and
arithmetic semantics on those specials); Python's `round(x, 2)` is modelled
as round-half-to-even at two decimal places on the exact rational value.
Python's `float(str)` conversion is modelled by `pyParseFloat` on the exact
decimal grammar (special names `nan`/`inf`/`infinity` case-insensitively,
optional sign, decimal mantissa, optional exponent); PEP-515 digit-group
underscores and overflow-to-infinity of huge exponents are not modelled, and
`pyFloatRepr` prints the exact positional decimal form (no scientific
notation), which agrees with `str(float)` on the magnitudes exercised here.

Rational arithmetic inside executable definitions is written with
`Rat.divInt` and the helpers `qadd`/`qmul`/`qneg`/`qsub` (the standard
`Rat.add` etc. are `@[irreducible]` and would block kernel evaluation);
the lemmas `qadd_eq` etc. bridge them to the ordinary field operations.
-/

/-- Executable rational addition (kernel-reducible, unlike `Rat.add`). -/
def qadd (a b : ℚ) : ℚ :=
  Rat.divInt (a.num * (b.den : ℤ) + b.num * (a.den : ℤ)) ((a.den : ℤ) * (b.den : ℤ))

/-- Executable rational multiplication. -/
def qmul (a b : ℚ) : ℚ := Rat.divInt (a.num * b.num) ((a.den : ℤ) * (b.den : ℤ))

/-- Executable rational negation. -/
def qneg (a : ℚ) : ℚ := Rat.divInt (-a.num) (a.den : ℤ)

/-- Executable rational subtraction. -/
def qsub (a b : ℚ) : ℚ := qadd a (qneg b)

theorem qadd_eq (a b : ℚ) : qadd a b = a + b := by
  have ha : ((a.den : ℤ)) ≠ 0 := Int.natCast_ne_zero.mpr a.den_nz
  have hb : ((b.den : ℤ)) ≠ 0 := Int.natCast_ne_zero.mpr b.den_nz
  rw [qadd]
  conv_rhs => rw [← Rat.num_divInt_den a, ← Rat.num_divInt_den b]
  rw [Rat.divInt_add_divInt _ _ ha hb]

theorem qmul_eq (a b : ℚ) : qmul a b = a * b := by
  rw [qmul]
  conv_rhs => rw [← Rat.num_divInt_den a, ← Rat.num_divInt_den b]
  rw [Rat.divInt_mul_divInt']

theorem qneg_eq (a : ℚ) : qneg a = -a := by
  rw [qneg, ← Rat.neg_def]

theorem qsub_eq (a b : ℚ) : qsub a b = a - b := by
  rw [qsub, qadd_eq, qneg_eq]
  ring

theorem divInt_one_eq (n : ℤ) : Rat.divInt n 1 = (n : ℚ) := by
  rw [Rat.divInt_eq_div]
  simp

/-- Model of a Python float value: exact rational, plus the IEEE specials. -/
inductive PyFloat where
  | fin (q : ℚ)
  | inf
  | neginf
  | nan
deriving DecidableEq

/-- Python `<` on floats: any comparison involving `nan` is false. -/
def PyFloat.lt : PyFloat → PyFloat → Bool
  | .fin a, .fin b => decide (a < b)
  | .fin _, .inf => true
  | .neginf, .fin _ => true
  | .neginf, .inf => true
  | _, _ => false

/-- Python `>` on floats. -/
def PyFloat.gt (a b : PyFloat) : Bool := PyFloat.lt b a

/-- Python `<=` on floats: any comparison involving `nan` is false. -/
def PyFloat.le : PyFloat → PyFloat → Bool
  | .fin a, .fin b => decide (a ≤ b)
  | .fin _, .inf => true
  | .neginf, _ => true
  | .inf, .inf => true
  | _, _ => false

/-- Python `>=` on floats. -/
def PyFloat.ge (a b : PyFloat) : Bool := PyFloat.le b a

/-- Is the value a finite number? -/
def PyFloat.isFin : PyFloat → Bool
  | .fin _ => true
  | _ => false

/-- Python float addition (`nan` propagates; `inf + -inf = nan`). -/
def PyFloat.add : PyFloat → PyFloat → PyFloat
  | .fin a, .fin b => .fin (qadd a b)
  | .nan, _ => .nan
  | _, .nan => .nan
  | .inf, .neginf => .nan
  | .neginf, .inf => .nan
  | .inf, _ => .inf
  | _, .inf => .inf
  | .neginf, _ => .neginf
  | _, .neginf => .neginf

/-- Python float negation. -/
def PyFloat.neg : PyFloat → PyFloat
  | .fin a => .fin (qneg a)
  | .inf => .neginf
  | .neginf => .inf
  | .nan => .nan

/-- Python float subtraction. -/
def PyFloat.sub (a b : PyFloat) : PyFloat := a.add b.neg

/-- Python float multiplication (`nan` propagates; `inf * 0 = nan`). -/
def PyFloat.mul : PyFloat → PyFloat → PyFloat
  | .fin a, .fin b => .fin (qmul a b)
  | .nan, _ => .nan
  | _, .nan => .nan
  | .inf, .inf => .inf
  | .inf, .neginf => .neginf
  | .neginf, .inf => .neginf
  | .neginf, .neginf => .inf
  | .inf, .fin b => if 0 < b then .inf else if b < 0 then .neginf else .nan
  | .fin a, .inf => if 0 < a then .inf else if a < 0 then .neginf else .nan
  | .neginf, .fin b => if 0 < b then .neginf else if b < 0 then .inf else .nan
  | .fin a, .neginf => if 0 < a then .neginf else if a < 0 then .inf else .nan

/-- Round a rational to the nearest integer, ties to the even integer
(the rounding mode of Python's `round`). -/
def roundHalfEven (q : ℚ) : ℤ :=
  let f : ℤ := q.floor
  let r : ℚ := qsub q (Rat.divInt f 1)
  if r < Rat.divInt 1 2 then f
  else if Rat.divInt 1 2 < r then f + 1
  else if f % 2 = 0 then f else f + 1

/-- Python `round(q, 2)` on an exact rational value. -/
def round2q (q : ℚ) : ℚ := Rat.divInt (roundHalfEven (qmul q (Rat.divInt 100 1))) 100

/-- Python `round(x, 2)` on a float value (`nan` and infinities round to
themselves). -/
def PyFloat.round2 : PyFloat → PyFloat
  | .fin q => .fin (round2q q)
  | x => x

/-- Digit-string value, most significant first. -/
def digitsVal (cs : List Char) : ℕ :=
  cs.foldl (fun a c => a * 10 + (c.toNat - 48)) 0

/-- Split a character list at the first `.` (if any). -/
def splitDot : List Char → List Char × Option (List Char)
  | [] => ([], none)
  | c :: t =>
    if c = '.' then ([], some t)
    else
      match splitDot t with
      | (a, b) => (c :: a, b)

/-- Split a character list at the first `e`/`E` (if any). -/
def splitExp : List Char → List Char × Option (List Char)
  | [] => ([], none)
  | c :: t =>
    if c = 'e' ∨ c = 'E' then ([], some t)
    else
      match splitExp t with
      | (a, b) => (c :: a, b)

/-- Parse an unsigned decimal mantissa (`digits`, `digits.digits`,
`.digits` or `digits.`). -/
def parseUnsigned (cs : List Char) : Option ℚ :=
  match splitDot cs with
  | (ip, none) =>
    if ip ≠ [] ∧ ip.all Char.isDigit then some (Rat.divInt (digitsVal ip) 1) else none
  | (ip, some fp) =>
    if (ip ++ fp) ≠ [] ∧ ip.all Char.isDigit ∧ fp.all Char.isDigit then
      some (Rat.divInt (digitsVal ip * Nat.pow 10 fp.length + digitsVal fp) (Nat.pow 10 fp.length))
    else none

/-- Parse an exponent part (optional sign, then digits). -/
def parseExpPart (cs : List Char) : Option ℤ :=
  let p : Bool × List Char :=
    match cs with
    | c :: t => if c = '+' then (false, t) else if c = '-' then (true, t) else (false, cs)
    | [] => (false, cs)
  if p.2 ≠ [] ∧ p.2.all Char.isDigit then
    some (if p.1 then -(digitsVal p.2 : ℤ) else (digitsVal p.2 : ℤ))
  else none

/-- Scale a rational by a power of ten (for the exponent of a float literal). -/
def scaleByExp (q : ℚ) (ex : ℤ) : ℚ :=
  match ex with
  | .ofNat n => qmul q (Rat.divInt (Int.ofNat (Nat.pow 10 n)) 1)
  | .negSucc n => qmul q (Rat.divInt 1 (Int.ofNat (Nat.pow 10 (n + 1))))

/-- Model of Python's `float(s)` conversion, for strings already stripped of
surrounding whitespace (every call site in the code strips first):
optional sign, then `nan` / `inf` / `infinity` case-insensitively, or a
decimal mantissa with optional exponent.  Returns `none` where Python
raises `ValueError`. -/
def pyParseFloat (s : String) : Option PyFloat :=
  let cs0 := s.data
  let neg := cs0.head? == some '-'
  let cs := if cs0.head? == some '-' || cs0.head? == some '+' then cs0.tail else cs0
  let low := cs.map Char.toLower
  if low = ("nan".data) then some .nan
  else if low = ("inf".data) ∨ low = ("infinity".data) then
    some (if neg then .neginf else .inf)
  else
    match splitExp cs with
    | (m, none) => (parseUnsigned m).map (fun q => .fin (if neg then qneg q else q))
    | (m, some e) => do
      let q ← parseUnsigned m
      let ex ← parseExpPart e
      some (.fin (scaleByExp (if neg then qneg q else q) ex))

/-- Largest `e` with `p ^ e ∣ n`, computed with structural fuel so it
kernel-reduces. -/
def countFactorAux : ℕ → ℕ → ℕ → ℕ
  | 0, _, _ => 0
  | fuel + 1, p, n =>
    if 1 < p ∧ 1 ≤ n ∧ n % p = 0 then countFactorAux fuel p (n / p) + 1 else 0

/-- Largest `e` with `p ^ e ∣ n` (for `1 < p`, `0 < n`). -/
def countFactor (p n : ℕ) : ℕ := countFactorAux n p n

/-- Remove trailing `'0'` characters. -/
def trimTrailingZeros (cs : List Char) : List Char :=
  (cs.reverse.dropWhile (fun c => c = '0')).reverse

/-- The `k` fractional digits of `fp`, left-padded with zeros, trailing
zeros removed, at least one digit kept (as `str(float)` prints). -/
def fracDigits (fp k : ℕ) : String :=
  let ds := (toString fp).data
  let padded := List.replicate (k - ds.length) '0' ++ ds
  let trimmed := trimTrailingZeros padded
  if trimmed = [] then "0" else String.mk trimmed

/-- Model of Python's `str(x)` for a float, in positional decimal form. -/
def pyFloatRepr : PyFloat → String
  | .nan => "nan"
  | .inf => "inf"
  | .neginf => "-inf"
  | .fin q =>
    let sgn := if q < 0 then "-" else ""
    let n := q.num.natAbs
    let d := q.den
    let k := max (countFactor 2 d) (countFactor 5 d)
    if d = Nat.pow 2 (countFactor 2 d) * Nat.pow 5 (countFactor 5 d) then
      let scaled := n * (Nat.pow 10 k / d)
      sgn ++ toString (scaled / Nat.pow 10 k) ++ "." ++ fracDigits (scaled % Nat.pow 10 k) k
    else
      sgn ++ toString n ++ "/" ++ toString d

/-- The fixed scoring weights of src/app.py (`WEIGHTS`). -/
structure Weights where
  impact : ℚ
  urgency : ℚ
  effort : ℚ
  cost : ℚ

/-- `WEIGHTS` from src/app.py (0.35, 0.30, 0.20, 0.15 as exact rationals). -/
def WEIGHTS : Weights :=
  { impact := Rat.divInt 35 100
    urgency := Rat.divInt 30 100
    effort := Rat.divInt 20 100
    cost := Rat.divInt 15 100 }

/-- `calculate_priority_score` from src/app.py: weighted sum with effort and
cost inverted via `6 - x`, rounded to two decimals. -/
def calculate_priority_score (impact urgency effort cost : PyFloat) : PyFloat :=
  PyFloat.round2
    ((((impact.mul (.fin WEIGHTS.impact)).add
        (urgency.mul (.fin WEIGHTS.urgency))).add
      (((PyFloat.fin (Rat.divInt 6 1)).sub effort).mul (.fin WEIGHTS.effort))).add
      (((PyFloat.fin (Rat.divInt 6 1)).sub cost).mul (.fin WEIGHTS.cost)))

/-- `get_priority_category` from src/app.py. -/
def get_priority_category (score : PyFloat) : String :=
  if score.ge (.fin (Rat.divInt 38 10)) then "High"
  else if score.ge (.fin (Rat.divInt 28 10)) then "Medium"
  else "Low"

/-- The tag list built by `get_explanation` in src/app.py, in its fixed
test-and-append order. -/
def explanationTags (impact urgency effort cost : PyFloat) : List String :=
  (if impact.ge (.fin (Rat.divInt 4 1)) then ["High Impact"] else [])
    ++ (if urgency.ge (.fin (Rat.divInt 4 1)) then ["Urgent"] else [])
    ++ (if effort.le (.fin (Rat.divInt 2 1)) then ["Low Effort"] else [])
    ++ (if cost.le (.fin (Rat.divInt 2 1)) then ["Cost Efficient"] else [])
    ++ (if effort.ge (.fin (Rat.divInt 4 1)) then ["High Effort ⚠️"] else [])
    ++ (if cost.ge (.fin (Rat.divInt 4 1)) then ["Expensive ⚠️"] else [])

/-- `get_explanation` from src/app.py. -/
def get_explanation (impact urgency effort cost : PyFloat) : String :=
  let tags := explanationTags impact urgency effort cost
  if tags = [] then "Balanced" else String.intercalate (", ") tags

deriving instance DecidableEq for Except

/-- ASCII whitespace as Python's `str.strip()` removes it (the non-ASCII
unicode whitespace Python also strips plays no role here). -/
def isPyWhitespace (c : Char) : Bool :=
  c = ' ' ∨ c = '\t' ∨ c = '\n' ∨ c = '\r' ∨ c = '\x0b' ∨ c = '\x0c'

/-- Python `s.strip()` (kernel-reducible, unlike `String.trim`). -/
def strip (s : String) : String :=
  String.mk (((s.data.dropWhile isPyWhitespace).reverse.dropWhile isPyWhitespace).reverse)

/-- Code-point-lexicographic `<` on char lists (Python string comparison). -/
def charsLt : List Char → List Char → Bool
  | [], [] => false
  | [], _ :: _ => true
  | _ :: _, [] => false
  | a :: as, b :: bs =>
    if a.toNat < b.toNat then true
    else if b.toNat < a.toNat then false
    else charsLt as bs

/-- Python `<` on strings (kernel-reducible, unlike `String.instLT`). -/
def strLt (a b : String) : Bool := charsLt a.data b.data

/-- The required CSV header set (`REQUIRED_COLUMNS` in src/app.py; a Python
set, carried here as a list — only membership and the sorted rendering are
ever used). -/
def REQUIRED_COLUMNS : List String :=
  ["Project Name", "Impact Score", "Urgency Score", "Effort Score", "Cost Score"]

/-- A parsed data row as the validator sees it: a map from header name to
cell value, where `none` models Python `None` (the `restval` filler that
`csv.DictReader` uses when a data row is shorter than the header row). -/
abbrev Row := String → Option String

/-- The cell list padded with `None` to the header count, as `csv.DictReader`
fills short rows (extra cells beyond the headers land under the `None`
restkey, which the pipeline never reads, so `zip`'s truncation is faithful). -/
def padCells (headers cells : List String) : List (Option String) :=
  cells.map some ++ List.replicate (headers.length - cells.length) none

/-- The dict `csv.DictReader` builds for one data row, exposed through
`row.get(field, "")`: later duplicate headers overwrite earlier ones, a
present key returns its (possibly `None`) value, an absent key returns
the default `""`. -/
def dictRow (headers cells : List String) : Row := fun f =>
  match (headers.zip (padCells headers cells)).reverse.find? (fun p => p.1 == f) with
  | some p => p.2
  | none => some ""

/-- The uncaught exception raised by `None.strip()` when a short row put
`None` into a field the validator reads. -/
def attrStripMsg : String := "AttributeError: 'NoneType' object has no attribute 'strip'"

/-- `value.strip()` in Python: trims a string, crashes on `None`. -/
def pyStrip : Option String → Except String String
  | some s => .ok (strip s)
  | none => .error attrStripMsg

/-- The error list contributed by one score field of one row (src/app.py
lines 45-55): empty after strip → "missing or empty"; unparsable → "must be
a number"; parsed but `< 1 or > 5` → "must be between 1 and 5".  `val` is
the already-stripped cell value. -/
def scoreFieldErrors (row_index : ℕ) (field val : String) : List String :=
  if val = "" then
    ["Row " ++ toString row_index ++ ": '" ++ field ++ "' is missing or empty."]
  else
    match pyParseFloat val with
    | none =>
      ["Row " ++ toString row_index ++ ": '" ++ field ++ "' must be a number (got '"
        ++ val ++ "')."]
    | some num =>
      if num.lt (.fin (Rat.divInt 1 1)) || num.gt (.fin (Rat.divInt 5 1)) then
        ["Row " ++ toString row_index ++ ": '" ++ field ++ "' must be between 1 and 5 (got "
          ++ pyFloatRepr num ++ ")."]
      else []

/-- The error list contributed by the Project Name check (src/app.py
lines 57-58); `name` is the already-stripped value. -/
def nameFieldErrors (row_index : ℕ) (name : String) : List String :=
  if name = "" then
    ["Row " ++ toString row_index ++ ": 'Project Name' is missing or empty."]
  else []

/-- `validate_row` from src/app.py: the four score fields in fixed order,
then the name check; `.error` models the uncaught `AttributeError` when a
read value is `None`. -/
def validate_row (row : Row) (row_index : ℕ) : Except String (List String) := do
  let v1 ← pyStrip (row ("Impact Score"))
  let v2 ← pyStrip (row ("Urgency Score"))
  let v3 ← pyStrip (row ("Effort Score"))
  let v4 ← pyStrip (row ("Cost Score"))
  let nm ← pyStrip (row ("Project Name"))
  return scoreFieldErrors row_index ("Impact Score") v1
    ++ scoreFieldErrors row_index ("Urgency Score") v2
    ++ scoreFieldErrors row_index ("Effort Score") v3
    ++ scoreFieldErrors row_index ("Cost Score") v4
    ++ nameFieldErrors row_index nm

/-- One scored output record (the dict built per row in `analyze`). -/
structure ScoredRow where
  project_name : String
  impact : PyFloat
  urgency : PyFloat
  effort : PyFloat
  cost : PyFloat
  priority_score : PyFloat
  priority_category : String
  explanation : String
  rank : ℕ
deriving DecidableEq

/-- `float(row[f].strip())` in the scoring loop.  By the time this runs,
validation has ruled out `None` values and parse failures, so the `.nan`
fallbacks of the two defensive branches are unreachable. -/
def toF (v : Option String) : PyFloat :=
  match v with
  | some s => (pyParseFloat (strip s)).getD .nan
  | none => .nan

/-- The scoring step of `analyze` (src/app.py lines 167-186) for one
validated row; `rank` is 0 until ranks are assigned after sorting. -/
def scoreRow (row : Row) : ScoredRow :=
  let impact := toF (row ("Impact Score"))
  let urgency := toF (row ("Urgency Score"))
  let effort := toF (row ("Effort Score"))
  let cost := toF (row ("Cost Score"))
  let score := calculate_priority_score impact urgency effort cost
  { project_name := strip ((row ("Project Name")).getD "")
    impact := impact
    urgency := urgency
    effort := effort
    cost := cost
    priority_score := score
    priority_category := get_priority_category score
    explanation := get_explanation impact urgency effort cost
    rank := 0 }

/-- Stable descending insertion by `priority_score`: an element moves past
`q` only while `q` is strictly greater, so earlier input stays first among
equal scores — the behaviour of Python's stable
`list.sort(key=..., reverse=True)`. -/
def insertByScore (p : ScoredRow) : List ScoredRow → List ScoredRow
  | [] => [p]
  | q :: t =>
    if PyFloat.lt p.priority_score q.priority_score then q :: insertByScore p t
    else p :: q :: t

/-- Stable descending sort by `priority_score` (src/app.py line 189). -/
def sortByScoreDesc : List ScoredRow → List ScoredRow
  | [] => []
  | p :: t => insertByScore p (sortByScoreDesc t)

/-- Rank assignment `enumerate(results, start=1)` (src/app.py lines 192-193). -/
def assignRanksFrom : ℕ → List ScoredRow → List ScoredRow
  | _, [] => []
  | k, p :: t => { p with rank := k } :: assignRanksFrom (k + 1) t

/-- Insertion step of `sorted(...)` on strings. -/
def insertStr (s : String) : List String → List String
  | [] => [s]
  | t :: r => if strLt s t then s :: t :: r else t :: insertStr s r

/-- Python `sorted` on a list of strings (lexicographic by code point). -/
def sortStrings : List String → List String
  | [] => []
  | s :: t => insertStr s (sortStrings t)

/-- Error message for a CSV with no header row at all. -/
def emptyMsg : String := "The uploaded CSV file appears to be empty."

/-- Error message for a CSV with headers but no data rows. -/
def noDataMsg : String := "The CSV file contains headers but no project data rows."

/-- Error message for missing required columns (src/app.py lines 142-145). -/
def missingMsg (missing : List String) : String :=
  "Missing required columns: " ++ String.intercalate (", ") (sortStrings missing)
    ++ ". Required columns are: " ++ String.intercalate (", ") (sortStrings REQUIRED_COLUMNS)
    ++ "."

/-- The combined validation failure message (src/app.py line 163). -/
def validationMsg (errors : List String) : String :=
  "Validation errors found:\n" ++ String.intercalate ("\n") errors

/-- Header names stripped of surrounding whitespace (src/app.py line 139). -/
def headersOf (headerRow : List String) : List String := headerRow.map (fun s => strip s)

/-- `REQUIRED_COLUMNS - set(fieldnames)` (src/app.py line 140). -/
def missingOf (headers : List String) : List String :=
  REQUIRED_COLUMNS.filter (fun c => !(headers.contains c))

/-- The data rows `list(reader)` yields: `csv.DictReader` skips blank rows. -/
def dataRowsOf (rest : List (List String)) : List (List String) :=
  rest.filter (fun r => !r.isEmpty)

/-- The row dicts for all data rows. -/
def rowsOf (headers : List String) (rest : List (List String)) : List Row :=
  (dataRowsOf rest).map (dictRow headers)

/-- The validation loop (src/app.py lines 157-160): every row is validated,
the per-row error lists are concatenated in row order; a `None` value makes
the whole loop crash at that row. -/
def collectErrors : List Row → ℕ → Except String (List String)
  | [], _ => .ok []
  | r :: t, idx => do
    let es ← validate_row r idx
    let rest ← collectErrors t (idx + 1)
    return es ++ rest

/-- Like `collectErrors` but keeping the per-row error lists separate. -/
def perRowErrors : List Row → ℕ → Except String (List (List String))
  | [], _ => .ok []
  | r :: t, idx => do
    let es ← validate_row r idx
    let rest ← perRowErrors t (idx + 1)
    return es :: rest

/-- Outcome of one run of the pipeline: a structured 400-failure, an
uncaught Python exception, or the success payload. -/
inductive AnalyzeResult where
  | failure (msg : String)
  | crash (msg : String)
  | success (total : ℕ) (high medium low : ℕ) (projects : List ScoredRow)
deriving DecidableEq

/-- Sorting, ranking and the summary tallies (src/app.py lines 189-205). -/
def mkSuccess (results : List ScoredRow) : AnalyzeResult :=
  let projects := assignRanksFrom 1 (sortByScoreDesc results)
  .success projects.length
    (projects.countP (fun p => p.priority_category == "High"))
    (projects.countP (fun p => p.priority_category == "Medium"))
    (projects.countP (fun p => p.priority_category == "Low"))
    projects

/-- The `analyze` route's core (src/app.py lines 130-205), from the parsed
cell table onward: header check, no-data check, batch validation, then
scoring/ranking/summary. -/
def analyze (table : List (List String)) : AnalyzeResult :=
  match table with
  | [] => .failure emptyMsg
  | headerRow :: rest =>
    if missingOf (headersOf headerRow) ≠ [] then
      .failure (missingMsg (missingOf (headersOf headerRow)))
    else if dataRowsOf rest = [] then .failure noDataMsg
    else
      match collectErrors (rowsOf (headersOf headerRow) rest) 2 with
      | .error msg => .crash msg
      | .ok allErrors =>
        if allErrors ≠ [] then .failure (validationMsg allErrors)
        else mkSuccess ((rowsOf (headersOf headerRow) rest).map scoreRow)

/-- The scored-but-unranked rows of a table (the `results` list right before
the sort), used to state stability of the final ordering. -/
def scoredRowsOf (table : List (List String)) : List ScoredRow :=
  match table with
  | [] => []
  | headerRow :: rest => (rowsOf (headersOf headerRow) rest).map scoreRow

/-- Number of (non-blank) data rows in a parsed table. -/
def numDataRows (table : List (List String)) : ℕ :=
  match table with
  | [] => 0
  | _ :: rest => (dataRowsOf rest).length

example : analyze [] = .failure emptyMsg := by decide
example : analyze [REQUIRED_COLUMNS] = .failure noDataMsg := by decide
example :
    analyze [["Project Name", "Impact Score", "Urgency Score", "Effort Score", "Cost Score"],
      ["A", "5", "5", "1", "1"]]
    = .success 1 1 0 0
      [{ project_name := "A", impact := .fin 5, urgency := .fin 5, effort := .fin 1,
         cost := .fin 1, priority_score := .fin 5, priority_category := "High",
         explanation := "High Impact, Urgent, Low Effort, Cost Efficient", rank := 1 }] := by
  decide
example :
    analyze [["Project Name", "Impact Score", "Urgency Score", "Effort Score", "Cost Score"],
      ["Alpha", "3"]] = .crash attrStripMsg := by decide
example :
    analyze [["Project Name", "Impact Score", "Urgency Score"],
      ["A", "5", "5"]]
    = .failure (missingMsg ["Effort Score", "Cost Score"]) := by decide
example :
    validate_row (dictRow (headersOf REQUIRED_COLUMNS) ["", "6", "x", "2", ""]) 2
    = .ok ["Row 2: 'Impact Score' must be between 1 and 5 (got 6.0).",
        "Row 2: 'Urgency Score' must be a number (got 'x').",
        "Row 2: 'Cost Score' is missing or empty.",
        "Row 2: 'Project Name' is missing or empty."] := by decide

example : calculate_priority_score (.fin 5) (.fin 5) (.fin 1) (.fin 1) = .fin 5 := by decide
example : calculate_priority_score (.fin 1) (.fin 1) (.fin 5) (.fin 5) = .fin 1 := by decide
example : calculate_priority_score .nan (.fin 3) (.fin 3) (.fin 3) = .nan := by decide
example : get_priority_category (.fin (Rat.divInt 38 10)) = "High" := by decide
example : get_priority_category (.fin (Rat.divInt 28 10)) = "Medium" := by decide
example : get_priority_category (.fin (Rat.divInt 279 100)) = "Low" := by decide
example : get_priority_category .nan = "Low" := by decide
example : pyParseFloat "nan" = some .nan := by decide
example : pyParseFloat "NaN" = some .nan := by decide
example : pyParseFloat "3.5" = some (.fin (Rat.divInt 35 10)) := by decide
example : pyParseFloat "-2e3" = some (.fin (Rat.divInt (-2000) 1)) := by decide
example : pyParseFloat "abc" = none := by decide
example : pyParseFloat "" = none := by decide
example : pyParseFloat "1.5e-2" = some (.fin (Rat.divInt 15 1000)) := by decide
example : pyFloatRepr (.fin 6) = "6.0" := by decide
example : pyFloatRepr (.fin (Rat.divInt 279 100)) = "2.79" := by decide
example : pyFloatRepr (.fin (Rat.divInt (-5) 10)) = "-0.5" := by decide
example : pyFloatRepr .inf = "inf" := by decide
example : get_explanation (.fin 1) (.fin 1) (.fin 5) (.fin 5) = "High Effort ⚠️, Expensive ⚠️" := by decide
example : get_explanation (.fin 3) (.fin 3) (.fin 3) (.fin 3) = "Balanced" := by decide

theorem divInt_38_10 : Rat.divInt 38 10 = (3.8 : ℚ) := by
  rw [Rat.divInt_eq_div]
  norm_num

theorem divInt_28_10 : Rat.divInt 28 10 = (2.8 : ℚ) := by
  rw [Rat.divInt_eq_div]
  norm_num

theorem divInt_279_100 : Rat.divInt 279 100 = (2.79 : ℚ) := by
  rw [Rat.divInt_eq_div]
  norm_num

theorem weights_eq :
    WEIGHTS.impact = (0.35 : ℚ) ∧ WEIGHTS.urgency = (0.30 : ℚ)
    ∧ WEIGHTS.effort = (0.20 : ℚ) ∧ WEIGHTS.cost = (0.15 : ℚ) := by
  refine ⟨?_, ?_, ?_, ?_⟩ <;> simp only [WEIGHTS] <;> rw [Rat.divInt_eq_div] <;> norm_num

/-- C1: for validated inputs in [1,5], `calculate_priority_score` returns
exactly `round(impact*0.35 + urgency*0.30 + (6-effort)*0.20 + (6-cost)*0.15, 2)`
(effort and cost inverted via `6 - x`, result rounded to two decimals). -/
theorem c1_score_formula (i u e c : ℚ)
    (hi1 : 1 ≤ i) (hi5 : i ≤ 5) (hu1 : 1 ≤ u) (hu5 : u ≤ 5)
    (he1 : 1 ≤ e) (he5 : e ≤ 5) (hc1 : 1 ≤ c) (hc5 : c ≤ 5) :
    calculate_priority_score (.fin i) (.fin u) (.fin e) (.fin c)
      = .fin (round2q (i * 0.35 + u * 0.30 + (6 - e) * 0.20 + (6 - c) * 0.15)) := by
  simp only [calculate_priority_score, PyFloat.mul, PyFloat.sub, PyFloat.add, PyFloat.neg,
    PyFloat.round2, qadd_eq, qmul_eq, qneg_eq, PyFloat.fin.injEq]
  congr 1
  rw [divInt_one_eq, weights_eq.1, weights_eq.2.1, weights_eq.2.2.1, weights_eq.2.2.2]
  push_cast
  ring

theorem c1_score_formula_witness :
    (1 ≤ (3 : ℚ)) ∧
    calculate_priority_score (.fin 3) (.fin 3) (.fin 3) (.fin 3)
      = .fin (round2q (3 * 0.35 + 3 * 0.30 + ((6 : ℚ) - 3) * 0.20 + ((6 : ℚ) - 3) * 0.15)) :=
  ⟨by norm_num,
    c1_score_formula 3 3 3 3 (by norm_num) (by norm_num) (by norm_num) (by norm_num)
      (by norm_num) (by norm_num) (by norm_num) (by norm_num)⟩

/-- C2: `get_priority_category` returns "High" iff score ≥ 3.8, "Medium" iff
2.8 ≤ score < 3.8, "Low" otherwise; 3.80 is "High", 2.80 is "Medium",
2.79 is "Low" (band lower bounds inclusive). -/
theorem c2_category_bands :
    (∀ s : ℚ,
      (get_priority_category (.fin s) = "High" ↔ (3.8 : ℚ) ≤ s)
      ∧ (get_priority_category (.fin s) = "Medium" ↔ (2.8 : ℚ) ≤ s ∧ s < (3.8 : ℚ))
      ∧ (get_priority_category (.fin s) = "Low" ↔ s < (2.8 : ℚ)))
    ∧ get_priority_category (.fin 3.8) = "High"
    ∧ get_priority_category (.fin 2.8) = "Medium"
    ∧ get_priority_category (.fin 2.79) = "Low" := by
  refine ⟨fun s => ?_, ?_, ?_, ?_⟩
  · simp only [get_priority_category, PyFloat.ge, PyFloat.le, divInt_38_10, divInt_28_10,
      decide_eq_true_eq]
    split_ifs with h1 h2 <;>
      refine ⟨?_, ?_, ?_⟩ <;> simp_all <;> first | linarith | (intro h; linarith)
  · rw [← divInt_38_10]
    decide
  · rw [← divInt_28_10]
    decide
  · rw [← divInt_279_100]
    decide

theorem c2_category_bands_witness :
    get_priority_category (.fin 4) = "High" :=
  (c2_category_bands.1 4).1.mpr (by norm_num)

theorem divInt_4_1 : Rat.divInt 4 1 = (4 : ℚ) := by
  rw [divInt_one_eq]
  norm_num

theorem divInt_2_1 : Rat.divInt 2 1 = (2 : ℚ) := by
  rw [divInt_one_eq]
  norm_num

/-- C6: the explanation tags are tested and appended in the fixed order
impact≥4 → "High Impact", urgency≥4 → "Urgent", effort≤2 → "Low Effort",
cost≤2 → "Cost Efficient", effort≥4 → "High Effort" (with caution mark),
cost≥4 → "Expensive" (with caution mark); no tags → "Balanced"; and at
impact=1, urgency=1, effort=5, cost=5 exactly the "High Effort" and
"Expensive" tags appear, in that order, with no "Balanced". -/
theorem c6_explanation_tags :
    (∀ i u e c : ℚ, 1 ≤ i → i ≤ 5 → 1 ≤ u → u ≤ 5 → 1 ≤ e → e ≤ 5 → 1 ≤ c → c ≤ 5 →
      explanationTags (.fin i) (.fin u) (.fin e) (.fin c)
        = (if (4 : ℚ) ≤ i then ["High Impact"] else [])
          ++ (if (4 : ℚ) ≤ u then ["Urgent"] else [])
          ++ (if e ≤ (2 : ℚ) then ["Low Effort"] else [])
          ++ (if c ≤ (2 : ℚ) then ["Cost Efficient"] else [])
          ++ (if (4 : ℚ) ≤ e then ["High Effort ⚠️"] else [])
          ++ (if (4 : ℚ) ≤ c then ["Expensive ⚠️"] else [])
      ∧ get_explanation (.fin i) (.fin u) (.fin e) (.fin c)
        = (if explanationTags (.fin i) (.fin u) (.fin e) (.fin c) = [] then "Balanced"
           else String.intercalate (", ") (explanationTags (.fin i) (.fin u) (.fin e) (.fin c))))
    ∧ explanationTags (.fin 1) (.fin 1) (.fin 5) (.fin 5) = ["High Effort ⚠️", "Expensive ⚠️"]
    ∧ get_explanation (.fin 1) (.fin 1) (.fin 5) (.fin 5) = "High Effort ⚠️, Expensive ⚠️"
    ∧ "High Effort ⚠️" = "High Effort" ++ " ⚠️"
    ∧ "Expensive ⚠️" = "Expensive" ++ " ⚠️"
    ∧ get_explanation (.fin 1) (.fin 1) (.fin 5) (.fin 5) ≠ "Balanced" := by
  refine ⟨fun i u e c _ _ _ _ _ _ _ _ => ⟨?_, rfl⟩, by decide, by decide, by decide, by decide,
    by decide⟩
  simp only [explanationTags, PyFloat.ge, PyFloat.le, divInt_4_1, divInt_2_1, decide_eq_true_eq]

theorem c6_explanation_tags_witness :
    explanationTags (.fin 1) (.fin 1) (.fin 5) (.fin 5)
      = (if (4 : ℚ) ≤ 1 then ["High Impact"] else [])
        ++ (if (4 : ℚ) ≤ 1 then ["Urgent"] else [])
        ++ (if (5 : ℚ) ≤ (2 : ℚ) then ["Low Effort"] else [])
        ++ (if (5 : ℚ) ≤ (2 : ℚ) then ["Cost Efficient"] else [])
        ++ (if (4 : ℚ) ≤ 5 then ["High Effort ⚠️"] else [])
        ++ (if (4 : ℚ) ≤ 5 then ["Expensive ⚠️"] else []) :=
  (c6_explanation_tags.1 1 1 5 5 (by norm_num) (by norm_num) (by norm_num) (by norm_num)
    (by norm_num) (by norm_num) (by norm_num) (by norm_num)).1

/-- C8: the pipeline is not total over raw inputs — a data row with fewer
fields than the header row makes `csv.DictReader` fill the missing fields
with `None`, and `validate_row` then crashes with an uncaught
`AttributeError` instead of producing the structured failure the spec
prescribes.  This theorem evaluates the pipeline at such an input. -/
theorem c8_short_row_crash :
    analyze [["Project Name", "Impact Score", "Urgency Score", "Effort Score", "Cost Score"],
      ["Alpha", "3"]]
    = .crash attrStripMsg := by
  decide

/-- The per-field validation rule as the spec states it (trim; empty →
"missing or empty"; parse failure → "must be a number (got '<raw>')";
out of [1,5] → "must be between 1 and 5 (got <value>)"), applied to one
raw cell value. -/
def specFieldCheck (row_index : ℕ) (field raw : String) : List String :=
  let val := strip raw
  if val = "" then
    ["Row " ++ toString row_index ++ ": '" ++ field ++ "' is missing or empty."]
  else
    match pyParseFloat val with
    | none =>
      ["Row " ++ toString row_index ++ ": '" ++ field ++ "' must be a number (got '"
        ++ val ++ "')."]
    | some num =>
      if num.lt (.fin 1) || num.gt (.fin 5) then
        ["Row " ++ toString row_index ++ ": '" ++ field ++ "' must be between 1 and 5 (got "
          ++ pyFloatRepr num ++ ")."]
      else []

theorem divInt_1_1 : Rat.divInt 1 1 = (1 : ℚ) := by
  rw [divInt_one_eq]
  norm_num

theorem divInt_5_1 : Rat.divInt 5 1 = (5 : ℚ) := by
  rw [divInt_one_eq]
  norm_num

theorem specFieldCheck_eq (row_index : ℕ) (field raw : String) :
    specFieldCheck row_index field raw = scoreFieldErrors row_index field (strip raw) := by
  simp only [specFieldCheck, scoreFieldErrors, divInt_1_1, divInt_5_1]

/-- C5: `validate_row` checks Impact/Urgency/Effort/Cost Score in that fixed
order with the trimmed-empty, non-numeric and out-of-range error messages
the claim states, then the trimmed Project Name, and returns the errors in
exactly that order. -/
theorem c5_validate_row (row : Row) (idx : ℕ) (vi vu ve vc vn : String)
    (h1 : row ("Impact Score") = some vi) (h2 : row ("Urgency Score") = some vu)
    (h3 : row ("Effort Score") = some ve) (h4 : row ("Cost Score") = some vc)
    (h5 : row ("Project Name") = some vn) :
    validate_row row idx = .ok
      (specFieldCheck idx ("Impact Score") vi
        ++ specFieldCheck idx ("Urgency Score") vu
        ++ specFieldCheck idx ("Effort Score") ve
        ++ specFieldCheck idx ("Cost Score") vc
        ++ (if strip vn = "" then
              ["Row " ++ toString idx ++ ": 'Project Name' is missing or empty."]
            else [])) := by
  simp only [validate_row, h1, h2, h3, h4, h5, pyStrip, Except.bind, bind, pure,
    Except.pure, specFieldCheck_eq, nameFieldErrors]

theorem c5_validate_row_witness :
    (dictRow (headersOf REQUIRED_COLUMNS) ["", "6", "x", "2", ""]) ("Impact Score") = some "6"
    ∧ validate_row (dictRow (headersOf REQUIRED_COLUMNS) ["", "6", "x", "2", ""]) 2 = .ok
      (specFieldCheck 2 ("Impact Score") "6"
        ++ specFieldCheck 2 ("Urgency Score") "x"
        ++ specFieldCheck 2 ("Effort Score") "2"
        ++ specFieldCheck 2 ("Cost Score") ""
        ++ (if strip "" = "" then
              ["Row " ++ toString 2 ++ ": 'Project Name' is missing or empty."]
            else [])) :=
  ⟨by decide,
    c5_validate_row (dictRow (headersOf REQUIRED_COLUMNS) ["", "6", "x", "2", ""]) 2
      "6" "x" "2" "" "" (by decide) (by decide) (by decide) (by decide) (by decide)⟩

/-- The row used to exhibit a full record whose Impact Score cell is a NaN
spelling. -/
def nanRow (raw : String) : Row := fun f =>
  if f = "Project Name" then some "P"
  else if f = "Impact Score" then some raw
  else some "3"

theorem char_toLower_n_ne_sign {ch : Char} (h : ch.toLower = 'n') :
    ch ≠ '-' ∧ ch ≠ '+' := by
  constructor <;> · intro he; subst he; exact absurd h (by decide)

/-- C10: a field whose stripped value spells `nan` in any letter case parses
as float NaN, NaN satisfies neither `num < 1` nor `num > 5`, so the field
check reports no error, a whole record with such a field passes validation,
and the resulting NaN priority score is categorized "Low". -/
theorem c10_nan_low (raw : String)
    (h : (strip raw).data.map Char.toLower = ("nan".data)) :
    pyParseFloat (strip raw) = some .nan
    ∧ PyFloat.lt .nan (.fin 1) = false
    ∧ PyFloat.gt .nan (.fin 5) = false
    ∧ scoreFieldErrors 2 ("Impact Score") (strip raw) = []
    ∧ validate_row (nanRow raw) 2 = .ok []
    ∧ calculate_priority_score .nan (.fin 3) (.fin 3) (.fin 3) = .nan
    ∧ get_priority_category .nan = "Low" := by
  rw [show ("nan".data : List Char) = ['n', 'a', 'n'] from rfl] at h
  have hne : strip raw ≠ "" := by
    intro he
    rw [he] at h
    exact absurd h (by decide)
  have hparse : pyParseFloat (strip raw) = some .nan := by
    rcases hd : (strip raw).data with _ | ⟨c1, t⟩
    · rw [hd] at h
      exact absurd h (by decide)
    · rw [hd] at h
      simp only [List.map_cons, List.cons.injEq] at h
      obtain ⟨hc1, ht⟩ := h
      have hsgn := char_toLower_n_ne_sign hc1
      have hm : ((c1 :: t).head? == some '-') = false := by
        simp [hsgn.1]
      have hp : ((c1 :: t).head? == some '+') = false := by
        simp [hsgn.2]
      have hlow : (c1 :: t).map Char.toLower = ("nan".data) := by
        rw [List.map_cons, hc1, ht]
      simp only [pyParseFloat, hd, hm, hp, Bool.or_self, Bool.false_eq_true, if_false, hlow,
        if_true, if_pos]
  have hsfe : scoreFieldErrors 2 ("Impact Score") (strip raw) = [] := by
    rw [scoreFieldErrors, if_neg hne, hparse]
    rfl
  refine ⟨hparse, rfl, rfl, hsfe, ?_, by decide, by decide⟩
  have r1 : nanRow raw ("Impact Score") = some raw := rfl
  have r2 : nanRow raw ("Urgency Score") = some "3" := rfl
  have r3 : nanRow raw ("Effort Score") = some "3" := rfl
  have r4 : nanRow raw ("Cost Score") = some "3" := rfl
  have r5 : nanRow raw ("Project Name") = some "P" := rfl
  have h3 : scoreFieldErrors 2 ("Urgency Score") (strip "3") = [] := by decide
  have h4 : scoreFieldErrors 2 ("Effort Score") (strip "3") = [] := by decide
  have h5 : scoreFieldErrors 2 ("Cost Score") (strip "3") = [] := by decide
  have h6 : nameFieldErrors 2 (strip "P") = [] := by decide
  simp only [validate_row, r1, r2, r3, r4, r5, pyStrip, Except.bind, bind, pure, Except.pure,
    hsfe, h3, h4, h5, h6, List.append_nil, List.nil_append]

theorem c10_nan_low_witness :
    ((strip (" NaN ")).data.map Char.toLower = ("nan".data))
    ∧ (pyParseFloat (strip (" NaN ")) = some .nan
      ∧ PyFloat.lt .nan (.fin 1) = false
      ∧ PyFloat.gt .nan (.fin 5) = false
      ∧ scoreFieldErrors 2 ("Impact Score") (strip (" NaN ")) = []
      ∧ validate_row (nanRow (" NaN ")) 2 = .ok []
      ∧ calculate_priority_score .nan (.fin 3) (.fin 3) (.fin 3) = .nan
      ∧ get_priority_category .nan = "Low") :=
  ⟨by decide, c10_nan_low (" NaN ") (by decide)⟩

theorem pyfloat_lt_true_ge (a b : PyFloat) (h : PyFloat.lt a b = true) :
    PyFloat.ge b a = true := by
  cases a <;> cases b <;> simp_all [PyFloat.lt, PyFloat.ge, PyFloat.le] <;> linarith

theorem pyfloat_lt_false_ge (a b : PyFloat)
    (ha : a.isFin = true) (hb : b.isFin = true) (h : PyFloat.lt a b = false) :
    PyFloat.ge a b = true := by
  cases a <;> cases b <;> simp_all [PyFloat.lt, PyFloat.ge, PyFloat.le, PyFloat.isFin] <;> linarith

theorem pyfloat_ge_trans (a b c : PyFloat)
    (h1 : PyFloat.ge a b = true) (h2 : PyFloat.ge b c = true) :
    PyFloat.ge a c = true := by
  cases a <;> cases b <;> cases c <;> simp_all [PyFloat.ge, PyFloat.le] <;> linarith

theorem pyfloat_lt_fin_ne (v : ℚ) (s : PyFloat) (h : PyFloat.lt (.fin v) s = true) :
    s ≠ .fin v := by
  intro he
  subst he
  simp [PyFloat.lt] at h

/-- The score-based insertion splits the list around the inserted element:
the prefix is exactly the elements it skipped, all strictly greater. -/
theorem insertByScore_split (p : ScoredRow) (l : List ScoredRow) :
    ∃ l1 l2, l = l1 ++ l2 ∧ insertByScore p l = l1 ++ p :: l2
      ∧ ∀ x ∈ l1, PyFloat.lt p.priority_score x.priority_score = true := by
  induction l with
  | nil => exact ⟨[], [], rfl, rfl, by simp⟩
  | cons q t ih =>
    by_cases h : PyFloat.lt p.priority_score q.priority_score = true
    · obtain ⟨l1, l2, he, hi, hgt⟩ := ih
      refine ⟨q :: l1, l2, by simp [he], ?_, ?_⟩
      · rw [insertByScore, if_pos h, hi]
        rfl
      · intro x hx
        rcases List.mem_cons.mp hx with h' | h'
        · subst h'
          exact h
        · exact hgt x h'
    · refine ⟨[], q :: t, rfl, ?_, by simp⟩
      rw [insertByScore, if_neg h]
      rfl

theorem insertByScore_length (p : ScoredRow) (l : List ScoredRow) :
    (insertByScore p l).length = l.length + 1 := by
  obtain ⟨l1, l2, he, hi, _⟩ := insertByScore_split p l
  rw [hi, he]
  simp
  omega

theorem sortByScoreDesc_length (l : List ScoredRow) :
    (sortByScoreDesc l).length = l.length := by
  induction l with
  | nil => rfl
  | cons p t ih => rw [sortByScoreDesc, insertByScore_length, ih, List.length_cons]

theorem insertByScore_mem (x p : ScoredRow) (l : List ScoredRow) :
    x ∈ insertByScore p l ↔ x = p ∨ x ∈ l := by
  obtain ⟨l1, l2, he, hi, _⟩ := insertByScore_split p l
  rw [hi, he]
  simp [List.mem_append]
  tauto

theorem sortByScoreDesc_mem (x : ScoredRow) (l : List ScoredRow) :
    x ∈ sortByScoreDesc l ↔ x ∈ l := by
  induction l with
  | nil => simp [sortByScoreDesc]
  | cons p t ih =>
    rw [sortByScoreDesc, insertByScore_mem, ih]
    simp

theorem insertByScore_pairwise (p : ScoredRow) (l : List ScoredRow)
    (hp : p.priority_score.isFin = true) (hl : ∀ x ∈ l, x.priority_score.isFin = true)
    (h : List.Pairwise (fun a b => PyFloat.ge a.priority_score b.priority_score = true) l) :
    List.Pairwise (fun a b => PyFloat.ge a.priority_score b.priority_score = true)
      (insertByScore p l) := by
  induction l with
  | nil => simp [insertByScore]
  | cons q t ih =>
    rw [insertByScore]
    by_cases hlt : PyFloat.lt p.priority_score q.priority_score = true
    · rw [if_pos hlt]
      rw [List.pairwise_cons] at h ⊢
      refine ⟨?_, ih (fun x hx => hl x (List.mem_cons_of_mem q hx)) h.2⟩
      intro x hx
      rcases (insertByScore_mem x p t).mp hx with h' | h'
      · subst h'
        exact pyfloat_lt_true_ge _ _ hlt
      · exact h.1 x h'
    · rw [if_neg hlt]
      rw [List.pairwise_cons] at h
      rw [List.pairwise_cons]
      have hq : PyFloat.ge p.priority_score q.priority_score = true :=
        pyfloat_lt_false_ge _ _ hp (hl q (List.mem_cons_self q t)) (by simpa using hlt)
      refine ⟨?_, List.pairwise_cons.mpr h⟩
      intro x hx
      rcases List.mem_cons.mp hx with h' | h'
      · subst h'
        exact hq
      · exact pyfloat_ge_trans _ _ _ hq (h.1 x h')

theorem sortByScoreDesc_pairwise (l : List ScoredRow)
    (hl : ∀ x ∈ l, x.priority_score.isFin = true) :
    List.Pairwise (fun a b => PyFloat.ge a.priority_score b.priority_score = true)
      (sortByScoreDesc l) := by
  induction l with
  | nil => simp [sortByScoreDesc]
  | cons p t ih =>
    rw [sortByScoreDesc]
    exact insertByScore_pairwise p (sortByScoreDesc t)
      (hl p (List.mem_cons_self p t))
      (fun x hx => hl x (List.mem_cons_of_mem p ((sortByScoreDesc_mem x t).mp hx)))
      (ih (fun x hx => hl x (List.mem_cons_of_mem p hx)))

theorem insertByScore_filter_score (p : ScoredRow) (l : List ScoredRow) (v : ℚ) :
    (insertByScore p l).filter (fun x => decide (x.priority_score = .fin v))
      = if p.priority_score = .fin v then
          p :: l.filter (fun x => decide (x.priority_score = .fin v))
        else l.filter (fun x => decide (x.priority_score = .fin v)) := by
  obtain ⟨l1, l2, he, hi, hgt⟩ := insertByScore_split p l
  rw [hi, he, List.filter_append, List.filter_append]
  by_cases hp : p.priority_score = .fin v
  · have hl1 : l1.filter (fun x => decide (x.priority_score = .fin v)) = [] := by
      rw [List.filter_eq_nil_iff]
      intro x hx
      have := pyfloat_lt_fin_ne v x.priority_score (by rw [← hp]; exact hgt x hx)
      simpa using this
    rw [if_pos hp, hl1, List.filter_cons, if_pos (by simpa using hp)]
    simp
  · rw [if_neg hp, List.filter_cons, if_neg (by simpa using hp)]

theorem sortByScoreDesc_filter_score (l : List ScoredRow) (v : ℚ) :
    (sortByScoreDesc l).filter (fun x => decide (x.priority_score = .fin v))
      = l.filter (fun x => decide (x.priority_score = .fin v)) := by
  induction l with
  | nil => rfl
  | cons p t ih =>
    rw [sortByScoreDesc, insertByScore_filter_score, List.filter_cons]
    by_cases hp : p.priority_score = .fin v
    · rw [if_pos hp, if_pos (by simpa using hp), ih]
    · rw [if_neg hp, if_neg (by simpa using hp), ih]

theorem assignRanksFrom_length (k : ℕ) (l : List ScoredRow) :
    (assignRanksFrom k l).length = l.length := by
  induction l generalizing k with
  | nil => rfl
  | cons p t ih => rw [assignRanksFrom, List.length_cons, ih, List.length_cons]

theorem assignRanksFrom_map_rank (k : ℕ) (l : List ScoredRow) :
    (assignRanksFrom k l).map (fun p => p.rank) = List.range' k l.length := by
  induction l generalizing k with
  | nil => rfl
  | cons p t ih =>
    rw [assignRanksFrom, List.map_cons, List.length_cons, List.range'_succ, ih]

theorem assignRanksFrom_map_score (k : ℕ) (l : List ScoredRow) :
    (assignRanksFrom k l).map (fun p => p.priority_score)
      = l.map (fun p => p.priority_score) := by
  induction l generalizing k with
  | nil => rfl
  | cons p t ih => rw [assignRanksFrom, List.map_cons, List.map_cons, ih]

/-- Forget the rank of a scored row (for stating stability of the sort,
since rank assignment rewrites ranks but nothing else). -/
def dropRank (p : ScoredRow) : ScoredRow := { p with rank := 0 }

theorem assignRanksFrom_filter_dropRank (k : ℕ) (l : List ScoredRow) (v : ℚ) :
    ((assignRanksFrom k l).filter (fun x => decide (x.priority_score = .fin v))).map dropRank
      = (l.filter (fun x => decide (x.priority_score = .fin v))).map dropRank := by
  induction l generalizing k with
  | nil => rfl
  | cons p t ih =>
    rw [assignRanksFrom, List.filter_cons, List.filter_cons]
    by_cases hp : p.priority_score = .fin v
    · rw [if_pos (by simpa using hp), if_pos (by simpa using hp), List.map_cons, List.map_cons,
        ih]
      rfl
    · rw [if_neg (by simpa using hp), if_neg (by simpa using hp), ih]

theorem assignRanksFrom_pairwise_score (k : ℕ) (l : List ScoredRow)
    (h : List.Pairwise (fun a b => PyFloat.ge a.priority_score b.priority_score = true) l) :
    List.Pairwise (fun a b => PyFloat.ge a.priority_score b.priority_score = true)
      (assignRanksFrom k l) := by
  induction l generalizing k with
  | nil => exact List.Pairwise.nil
  | cons p t ih =>
    rw [assignRanksFrom, List.pairwise_cons]
    rw [List.pairwise_cons] at h
    refine ⟨?_, ih (k + 1) h.2⟩
    intro x hx
    have : x.priority_score ∈ (assignRanksFrom (k + 1) t).map (fun p => p.priority_score) :=
      List.mem_map_of_mem _ hx
    rw [assignRanksFrom_map_score] at this
    obtain ⟨y, hy, hxy⟩ := List.mem_map.mp this
    rw [← hxy]
    exact h.1 y hy

theorem assignRanksFrom_mem_score (x : ScoredRow) (k : ℕ) (l : List ScoredRow)
    (hx : x ∈ assignRanksFrom k l) :
    ∃ y ∈ l, x.priority_score = y.priority_score ∧ x.priority_category = y.priority_category := by
  induction l generalizing k with
  | nil => cases hx
  | cons p t ih =>
    rw [assignRanksFrom] at hx
    rcases List.mem_cons.mp hx with h' | h'
    · exact ⟨p, List.mem_cons_self p t, by rw [h'], by rw [h']⟩
    · obtain ⟨y, hy, hsc, hca⟩ := ih (k + 1) h'
      exact ⟨y, List.mem_cons_of_mem p hy, hsc, hca⟩

theorem get_priority_category_cases (s : PyFloat) :
    get_priority_category s = "High" ∨ get_priority_category s = "Medium"
      ∨ get_priority_category s = "Low" := by
  rw [get_priority_category]
  split_ifs <;> simp

theorem countP_three_categories (l : List ScoredRow)
    (h : ∀ p ∈ l, p.priority_category = "High" ∨ p.priority_category = "Medium"
      ∨ p.priority_category = "Low") :
    l.countP (fun p => p.priority_category == "High")
      + l.countP (fun p => p.priority_category == "Medium")
      + l.countP (fun p => p.priority_category == "Low") = l.length := by
  induction l with
  | nil => rfl
  | cons p t ih =>
    have ht := ih (fun q hq => h q (List.mem_cons_of_mem p hq))
    rcases h p (List.mem_cons_self p t) with hc | hc | hc <;>
      simp [List.countP_cons, hc] <;> omega

/-- Inversion of a successful run: the projects list is the rank-assigned
stable descending sort of the scored rows, and the payload's counts are the
advertised functions of it. -/
theorem analyze_success_inv {table : List (List String)} {total hi me lo : ℕ}
    {projects : List ScoredRow}
    (h : analyze table = .success total hi me lo projects) :
    projects = assignRanksFrom 1 (sortByScoreDesc (scoredRowsOf table))
    ∧ total = projects.length
    ∧ hi = projects.countP (fun p => p.priority_category == "High")
    ∧ me = projects.countP (fun p => p.priority_category == "Medium")
    ∧ lo = projects.countP (fun p => p.priority_category == "Low") := by
  match table with
  | [] => exact absurd h (by simp [analyze])
  | headerRow :: rest =>
    rw [analyze] at h
    split at h
    · exact absurd h (by simp)
    · split at h
      · exact absurd h (by simp)
      · split at h
        · exact absurd h (by simp)
        · split at h
          · exact absurd h (by simp)
          · rw [mkSuccess] at h
            obtain ⟨h1, h2, h3, h4, h5⟩ := (AnalyzeResult.success.injEq _ _ _ _ _ _ _ _ _ _).mp h
            subst h5
            exact ⟨rfl, h1.symm, h2.symm, h3.symm, h4.symm⟩

theorem scoredRowsOf_category (table : List (List String)) (x : ScoredRow)
    (hx : x ∈ scoredRowsOf table) :
    x.priority_category = "High" ∨ x.priority_category = "Medium"
      ∨ x.priority_category = "Low" := by
  match table with
  | [] => cases hx
  | headerRow :: rest =>
    rw [scoredRowsOf] at hx
    obtain ⟨r, _, hr⟩ := List.mem_map.mp hx
    rw [← hr]
    exact get_priority_category_cases _

theorem projects_category {table : List (List String)} {total hi me lo : ℕ}
    {projects : List ScoredRow} (h : analyze table = .success total hi me lo projects) :
    ∀ p ∈ projects, p.priority_category = "High" ∨ p.priority_category = "Medium"
      ∨ p.priority_category = "Low" := by
  obtain ⟨hp, -⟩ := analyze_success_inv h
  intro p hmem
  rw [hp] at hmem
  obtain ⟨y, hy, -, hcat⟩ := assignRanksFrom_mem_score p 1 _ hmem
  rw [hcat]
  exact scoredRowsOf_category table y ((sortByScoreDesc_mem y _).mp hy)

/-- C9: on every successful run, `total_projects` equals the length of the
projects list, which equals the number of data rows; each summary count is
the category filter count, and high + medium + low = total_projects. -/
theorem c9_totals {table : List (List String)} {total hi me lo : ℕ}
    {projects : List ScoredRow} (h : analyze table = .success total hi me lo projects) :
    total = projects.length
    ∧ projects.length = numDataRows table
    ∧ hi = projects.countP (fun p => p.priority_category == "High")
    ∧ me = projects.countP (fun p => p.priority_category == "Medium")
    ∧ lo = projects.countP (fun p => p.priority_category == "Low")
    ∧ hi + me + lo = total := by
  obtain ⟨hp, ht, h1, h2, h3⟩ := analyze_success_inv h
  have hlen : projects.length = numDataRows table := by
    match table with
    | [] => exact absurd h (by simp [analyze])
    | headerRow :: rest =>
      rw [hp, assignRanksFrom_length, sortByScoreDesc_length, scoredRowsOf, numDataRows,
        List.length_map, rowsOf, List.length_map]
  refine ⟨ht, hlen, h1, h2, h3, ?_⟩
  rw [h1, h2, h3, ht]
  exact countP_three_categories projects (projects_category h)

theorem c9_totals_witness :
    2 = (assignRanksFrom 1 (sortByScoreDesc (scoredRowsOf
        [["Project Name", "Impact Score", "Urgency Score", "Effort Score", "Cost Score"],
         ["A", "5", "5", "1", "1"], ["B", "1", "1", "5", "5"]]))).length
    ∧ (assignRanksFrom 1 (sortByScoreDesc (scoredRowsOf
        [["Project Name", "Impact Score", "Urgency Score", "Effort Score", "Cost Score"],
         ["A", "5", "5", "1", "1"], ["B", "1", "1", "5", "5"]]))).length
      = numDataRows
        [["Project Name", "Impact Score", "Urgency Score", "Effort Score", "Cost Score"],
         ["A", "5", "5", "1", "1"], ["B", "1", "1", "5", "5"]]
    ∧ 1 = (assignRanksFrom 1 (sortByScoreDesc (scoredRowsOf
        [["Project Name", "Impact Score", "Urgency Score", "Effort Score", "Cost Score"],
         ["A", "5", "5", "1", "1"], ["B", "1", "1", "5", "5"]]))).countP
        (fun p => p.priority_category == "High")
    ∧ 0 = (assignRanksFrom 1 (sortByScoreDesc (scoredRowsOf
        [["Project Name", "Impact Score", "Urgency Score", "Effort Score", "Cost Score"],
         ["A", "5", "5", "1", "1"], ["B", "1", "1", "5", "5"]]))).countP
        (fun p => p.priority_category == "Medium")
    ∧ 1 = (assignRanksFrom 1 (sortByScoreDesc (scoredRowsOf
        [["Project Name", "Impact Score", "Urgency Score", "Effort Score", "Cost Score"],
         ["A", "5", "5", "1", "1"], ["B", "1", "1", "5", "5"]]))).countP
        (fun p => p.priority_category == "Low")
    ∧ 1 + 0 + 1 = 2 :=
  c9_totals (by decide)

/-- C3 as stated is false on the code: a record whose scores include a NaN
field passes validation (see C10), the run succeeds, and the output is then
not non-increasing under Python's `>=` — here the NaN-scored project is
ranked 1 and `projects[0].priority_score >= projects[1].priority_score` is
false. -/
theorem c3_counterexample :
    analyze [["Project Name", "Impact Score", "Urgency Score", "Effort Score", "Cost Score"],
      ["N", "nan", "1", "1", "1"], ["B", "5", "5", "1", "1"]]
    = .success 2 1 0 1
      [{ project_name := "N", impact := .nan, urgency := .fin 1, effort := .fin 1,
         cost := .fin 1, priority_score := .nan, priority_category := "Low",
         explanation := "Low Effort, Cost Efficient", rank := 1 },
       { project_name := "B", impact := .fin 5, urgency := .fin 5, effort := .fin 1,
         cost := .fin 1, priority_score := .fin 5, priority_category := "High",
         explanation := "High Impact, Urgent, Low Effort, Cost Efficient", rank := 2 }]
    ∧ PyFloat.ge PyFloat.nan (.fin 5) = false := by
  constructor
  · decide
  · decide

/-- C3 (amended): on every successful run whose priority scores are all
finite (i.e. no field parsed as NaN), the projects list is sorted
non-increasing by priority_score, rank is the 1-based position (ranks are
exactly 1..N), and projects with any given score appear in the same relative
order as in the unsorted scored-row list (stable sort). -/
theorem c3_sorted_ranked_stable {table : List (List String)} {total hi me lo : ℕ}
    {projects : List ScoredRow} (h : analyze table = .success total hi me lo projects)
    (hfin : ∀ p ∈ projects, p.priority_score.isFin = true) :
    List.Pairwise (fun a b => PyFloat.ge a.priority_score b.priority_score = true) projects
    ∧ projects.map (fun p => p.rank) = List.range' 1 projects.length
    ∧ ∀ v : ℚ,
        (projects.filter (fun p => decide (p.priority_score = .fin v))).map dropRank
          = ((scoredRowsOf table).filter
              (fun p => decide (p.priority_score = .fin v))).map dropRank := by
  obtain ⟨hp, -, -, -, -⟩ := analyze_success_inv h
  have hfinR : ∀ x ∈ scoredRowsOf table, x.priority_score.isFin = true := by
    intro x hx
    have hxs : x.priority_score
        ∈ (sortByScoreDesc (scoredRowsOf table)).map (fun p => p.priority_score) := by
      exact List.mem_map_of_mem _ ((sortByScoreDesc_mem x _).mpr hx)
    rw [← assignRanksFrom_map_score 1, ← hp] at hxs
    obtain ⟨y, hy, hxy⟩ := List.mem_map.mp hxs
    rw [← hxy]
    exact hfin y hy
  refine ⟨?_, ?_, ?_⟩
  · rw [hp]
    exact assignRanksFrom_pairwise_score 1 _ (sortByScoreDesc_pairwise _ hfinR)
  · rw [hp, assignRanksFrom_map_rank, assignRanksFrom_length]
  · intro v
    rw [hp, assignRanksFrom_filter_dropRank, sortByScoreDesc_filter_score]

theorem c3_sorted_ranked_stable_witness :
    List.Pairwise (fun a b => PyFloat.ge a.priority_score b.priority_score = true)
      (assignRanksFrom 1 (sortByScoreDesc (scoredRowsOf
        [["Project Name", "Impact Score", "Urgency Score", "Effort Score", "Cost Score"],
         ["A", "2", "2", "4", "4"], ["B", "4", "4", "2", "2"]])))
    ∧ (assignRanksFrom 1 (sortByScoreDesc (scoredRowsOf
        [["Project Name", "Impact Score", "Urgency Score", "Effort Score", "Cost Score"],
         ["A", "2", "2", "4", "4"], ["B", "4", "4", "2", "2"]]))).map (fun p => p.rank)
      = List.range' 1 (assignRanksFrom 1 (sortByScoreDesc (scoredRowsOf
        [["Project Name", "Impact Score", "Urgency Score", "Effort Score", "Cost Score"],
         ["A", "2", "2", "4", "4"], ["B", "4", "4", "2", "2"]]))).length
    ∧ ∀ v : ℚ,
        ((assignRanksFrom 1 (sortByScoreDesc (scoredRowsOf
          [["Project Name", "Impact Score", "Urgency Score", "Effort Score", "Cost Score"],
           ["A", "2", "2", "4", "4"], ["B", "4", "4", "2", "2"]]))).filter
            (fun p => decide (p.priority_score = .fin v))).map dropRank
          = ((scoredRowsOf
          [["Project Name", "Impact Score", "Urgency Score", "Effort Score", "Cost Score"],
           ["A", "2", "2", "4", "4"], ["B", "4", "4", "2", "2"]]).filter
              (fun p => decide (p.priority_score = .fin v))).map dropRank :=
  @c3_sorted_ranked_stable
    [["Project Name", "Impact Score", "Urgency Score", "Effort Score", "Cost Score"],
     ["A", "2", "2", "4", "4"], ["B", "4", "4", "2", "2"]] 2 1 0 1
    (assignRanksFrom 1 (sortByScoreDesc (scoredRowsOf
      [["Project Name", "Impact Score", "Urgency Score", "Effort Score", "Cost Score"],
       ["A", "2", "2", "4", "4"], ["B", "4", "4", "2", "2"]])))
    (by decide) (by decide)

theorem collectErrors_eq_perRow (rows : List Row) (n : ℕ) (ll : List (List String))
    (h : perRowErrors rows n = .ok ll) : collectErrors rows n = .ok ll.flatten := by
  induction rows generalizing n ll with
  | nil =>
    rw [perRowErrors] at h
    obtain rfl : [] = ll := by simpa [pure, Except.pure] using h
    rfl
  | cons r t ih =>
    rw [perRowErrors] at h
    rw [collectErrors]
    cases hv : validate_row r n with
    | error e =>
      rw [hv] at h
      simp [Except.bind, bind] at h
    | ok es =>
      rw [hv] at h
      cases hp : perRowErrors t (n + 1) with
      | error e =>
        rw [hp] at h
        simp [Except.bind, bind] at h
      | ok rest =>
        rw [hp] at h
        obtain rfl : es :: rest = ll := by simpa [Except.bind, bind, pure, Except.pure] using h
        rw [ih (n + 1) rest hp]
        simp [Except.bind, bind, pure, Except.pure]

/-- C4: validation is all-or-nothing — when the header and no-data checks
pass and every row yields its full error list (`perRowErrors`), a non-empty
union of those lists makes `analyze` return the single combined multi-line
message holding every row's errors in row order, and no scoring happens. -/
theorem c4_all_or_nothing (headerRow : List String) (rest : List (List String))
    (ll : List (List String))
    (hmiss : missingOf (headersOf headerRow) = [])
    (hdata : dataRowsOf rest ≠ [])
    (hval : perRowErrors (rowsOf (headersOf headerRow) rest) 2 = .ok ll)
    (hne : ll.flatten ≠ []) :
    analyze (headerRow :: rest)
      = .failure ("Validation errors found:\n" ++ String.intercalate ("\n") ll.flatten) := by
  have hcoll : collectErrors (rowsOf (headersOf headerRow) rest) 2 = .ok ll.flatten :=
    collectErrors_eq_perRow _ _ _ hval
  rw [analyze, if_neg (fun hc => hc hmiss), if_neg hdata]
  simp only [hcoll]
  rw [if_pos hne, validationMsg]

theorem c4_all_or_nothing_witness :
    perRowErrors (rowsOf (headersOf
        ["Project Name", "Impact Score", "Urgency Score", "Effort Score", "Cost Score"])
        [["", "9", "1", "1", "1"], ["B", "0", "1", "1", "1"]]) 2
      = .ok [["Row 2: 'Impact Score' must be between 1 and 5 (got 9.0).",
              "Row 2: 'Project Name' is missing or empty."],
             ["Row 3: 'Impact Score' must be between 1 and 5 (got 0.0)."]]
    ∧ analyze (["Project Name", "Impact Score", "Urgency Score", "Effort Score", "Cost Score"]
        :: [["", "9", "1", "1", "1"], ["B", "0", "1", "1", "1"]])
      = .failure ("Validation errors found:\n" ++ String.intercalate ("\n")
          [["Row 2: 'Impact Score' must be between 1 and 5 (got 9.0).",
            "Row 2: 'Project Name' is missing or empty."],
           ["Row 3: 'Impact Score' must be between 1 and 5 (got 0.0)."]].flatten) :=
  ⟨by decide,
    c4_all_or_nothing _ _ _ (by decide) (by decide) (by decide) (by decide)⟩

theorem charsLt_asymm : ∀ a b : List Char, charsLt a b = true → charsLt b a = false
  | [], [], h => by simp [charsLt] at h
  | [], _ :: _, _ => rfl
  | _ :: _, [], h => by simp [charsLt] at h
  | a :: as, b :: bs, h => by
    rw [charsLt] at h ⊢
    by_cases h1 : a.toNat < b.toNat
    · rw [if_neg (by omega), if_pos h1]
    · rw [if_neg h1] at h
      by_cases h2 : b.toNat < a.toNat
      · rw [if_pos h2] at h
        cases h
      · rw [if_neg h2] at h
        rw [if_neg h2, if_neg h1]
        exact charsLt_asymm as bs h

theorem charsLt_lt_of_lt_of_nlt :
    ∀ s t y : List Char, charsLt s t = true → charsLt y t = false → charsLt s y = true
  | [], [], _, hst, _ => by simp [charsLt] at hst
  | _ :: _, [], _, hst, _ => by simp [charsLt] at hst
  | _, _ :: _, [], _, hyt => by simp [charsLt] at hyt
  | [], b :: bs, c :: cs, _, _ => rfl
  | a :: as, b :: bs, c :: cs, hst, hyt => by
    rw [charsLt] at hst hyt ⊢
    by_cases hab : a.toNat < b.toNat
    · by_cases hcb : c.toNat < b.toNat
      · rw [if_pos hcb] at hyt
        cases hyt
      · rw [if_neg hcb] at hyt
        by_cases hac : a.toNat < c.toNat
        · rw [if_pos hac]
        · by_cases hbc : b.toNat < c.toNat
          · omega
          · omega
    · rw [if_neg hab] at hst
      by_cases hba : b.toNat < a.toNat
      · rw [if_pos hba] at hst
        cases hst
      · rw [if_neg hba] at hst
        by_cases hcb : c.toNat < b.toNat
        · rw [if_pos hcb] at hyt
          cases hyt
        · rw [if_neg hcb] at hyt
          by_cases hbc : b.toNat < c.toNat
          · rw [if_pos (by omega : a.toNat < c.toNat)]
          · rw [if_neg hbc] at hyt
            have hbc' : b.toNat = c.toNat := by omega
            rw [if_neg (by omega : ¬ a.toNat < c.toNat), if_neg (by omega : ¬ c.toNat < a.toNat)]
            exact charsLt_lt_of_lt_of_nlt as bs cs hst hyt

theorem strLt_asymm (a b : String) (h : strLt a b = true) : strLt b a = false :=
  charsLt_asymm a.data b.data h

theorem strLt_lt_of_lt_of_nlt (s t y : String) (hst : strLt s t = true)
    (hyt : strLt y t = false) : strLt s y = true :=
  charsLt_lt_of_lt_of_nlt s.data t.data y.data hst hyt

theorem insertStr_mem (x s : String) (l : List String) :
    x ∈ insertStr s l ↔ x = s ∨ x ∈ l := by
  induction l with
  | nil => simp [insertStr]
  | cons t r ih =>
    rw [insertStr]
    by_cases h : strLt s t = true
    · rw [if_pos h]
      simp
    · rw [if_neg h, List.mem_cons, ih, List.mem_cons]
      tauto

theorem insertStr_pairwise (s : String) (l : List String)
    (h : List.Pairwise (fun a b => strLt b a = false) l) :
    List.Pairwise (fun a b => strLt b a = false) (insertStr s l) := by
  induction l with
  | nil => simp [insertStr]
  | cons t r ih =>
    rw [insertStr]
    rw [List.pairwise_cons] at h
    by_cases hlt : strLt s t = true
    · rw [if_pos hlt, List.pairwise_cons, List.pairwise_cons]
      refine ⟨?_, h.1, h.2⟩
      intro y hy
      rcases List.mem_cons.mp hy with h' | h'
      · rw [h']
        exact strLt_asymm s t hlt
      · by_contra hc
        have hys : strLt y s = true := by
          cases hys : strLt y s
          · exact absurd hys hc
          · rfl
        have := strLt_lt_of_lt_of_nlt y s t
        have hyt : strLt y t = false := h.1 y h'
        have : strLt s y = true := strLt_lt_of_lt_of_nlt s t y hlt hyt
        rw [strLt_asymm y s hys] at this
        cases this
    · rw [if_neg hlt, List.pairwise_cons]
      refine ⟨?_, ih h.2⟩
      intro y hy
      rcases (insertStr_mem y s r).mp hy with h' | h'
      · rw [h']
        cases hc : strLt s t
        · rfl
        · exact absurd hc hlt
      · exact h.1 y h'

theorem sortStrings_pairwise (l : List String) :
    List.Pairwise (fun a b => strLt b a = false) (sortStrings l) := by
  induction l with
  | nil => exact List.Pairwise.nil
  | cons s t ih => exact insertStr_pairwise s (sortStrings t) ih

theorem missingMsg_eq (m : List String) :
    missingMsg m = "Missing required columns: "
      ++ String.intercalate (", ") (sortStrings m)
      ++ ". Required columns are: Cost Score, Effort Score, Impact Score, Project Name, Urgency Score." := by
  rw [missingMsg]
  rw [show String.intercalate (", ") (sortStrings REQUIRED_COLUMNS)
      = "Cost Score, Effort Score, Impact Score, Project Name, Urgency Score" from by decide]
  apply String.ext
  simp only [String.data_append, List.append_assoc]
  congr 2

theorem dictRow_append (hs : List String) (ht : String) (r : List String) (v : String)
    (hlen : r.length = hs.length) (f : String) (hf : f ≠ ht) :
    dictRow (hs ++ [ht]) (r ++ [v]) f = dictRow hs r f := by
  rw [dictRow, dictRow, padCells, padCells]
  rw [show (hs ++ [ht]).length - (r ++ [v]).length = 0 by simp [hlen]]
  rw [show hs.length - r.length = 0 by omega]
  simp only [List.replicate_zero, List.append_nil]
  rw [List.map_append]
  rw [List.zip_append (by simp [hlen])]
  rw [show ([ht].zip ([v].map some)) = [(ht, some v)] from rfl]
  rw [List.reverse_append]
  rw [show ([(ht, some v)] : List (String × Option String)).reverse = [(ht, some v)] from rfl]
  rw [List.singleton_append]
  rw [List.find?_cons_of_neg _ (by simp [Ne.symm hf])]

theorem validate_row_congr (r1 r2 : Row) (i : ℕ)
    (h : ∀ f ∈ REQUIRED_COLUMNS, r1 f = r2 f) : validate_row r1 i = validate_row r2 i := by
  have e1 := h ("Impact Score") (by decide)
  have e2 := h ("Urgency Score") (by decide)
  have e3 := h ("Effort Score") (by decide)
  have e4 := h ("Cost Score") (by decide)
  have e5 := h ("Project Name") (by decide)
  rw [validate_row, validate_row, e1, e2, e3, e4, e5]

theorem scoreRow_congr (r1 r2 : Row)
    (h : ∀ f ∈ REQUIRED_COLUMNS, r1 f = r2 f) : scoreRow r1 = scoreRow r2 := by
  have e1 := h ("Impact Score") (by decide)
  have e2 := h ("Urgency Score") (by decide)
  have e3 := h ("Effort Score") (by decide)
  have e4 := h ("Cost Score") (by decide)
  have e5 := h ("Project Name") (by decide)
  rw [scoreRow, scoreRow, e1, e2, e3, e4, e5]

theorem collectErrors_congr (l1 l2 : List Row) (n : ℕ)
    (h : List.Forall₂ (fun r1 r2 => ∀ f ∈ REQUIRED_COLUMNS, r1 f = r2 f) l1 l2) :
    collectErrors l1 n = collectErrors l2 n := by
  induction h generalizing n with
  | nil => rfl
  | cons hr _ ih => rw [collectErrors, collectErrors, validate_row_congr _ _ _ hr, ih]

theorem mapScoreRow_congr (l1 l2 : List Row)
    (h : List.Forall₂ (fun r1 r2 => ∀ f ∈ REQUIRED_COLUMNS, r1 f = r2 f) l1 l2) :
    l1.map scoreRow = l2.map scoreRow := by
  induction h with
  | nil => rfl
  | cons hr _ ih => rw [List.map_cons, List.map_cons, scoreRow_congr _ _ hr, ih]

theorem forall₂_map_map {α : Type} {β : Type} (l : List α) (f g : α → β)
    (P : β → β → Prop) (h : ∀ x ∈ l, P (f x) (g x)) :
    List.Forall₂ P (l.map f) (l.map g) := by
  induction l with
  | nil => exact List.Forall₂.nil
  | cons x t ih =>
    exact List.Forall₂.cons (h x (List.mem_cons_self x t))
      (ih (fun y hy => h y (List.mem_cons_of_mem x hy)))

theorem contains_append_single (hs : List String) (sh c : String) :
    (hs ++ [sh]).contains c = (hs.contains c || (c == sh)) := by
  induction hs with
  | nil =>
    rw [List.nil_append, List.contains_cons]
    simp
  | cons b t ih =>
    simp only [List.cons_append, List.contains_cons, ih]
    cases c == b <;> simp

theorem missingOf_append_extra (hs : List String) (sh : String)
    (hsh : sh ∉ REQUIRED_COLUMNS) : missingOf (hs ++ [sh]) = missingOf hs := by
  rw [missingOf, missingOf]
  apply List.filter_congr
  intro c hc
  have hne : c ≠ sh := fun he => hsh (he ▸ hc)
  rw [contains_append_single]
  rw [show (c == sh) = false by simp [hne]]
  rw [Bool.or_false]

theorem dataRowsOf_map_ext (rest : List (List String)) (g : List String → String) :
    dataRowsOf (rest.map (fun r => if r.isEmpty then r else r ++ [g r]))
      = (dataRowsOf rest).map (fun r => if r.isEmpty then r else r ++ [g r]) := by
  rw [dataRowsOf, dataRowsOf, List.filter_map]
  congr 1
  apply List.filter_congr
  intro r _
  cases r with
  | nil => rfl
  | cons x xs => rfl

theorem analyze_extra_column (headerRow : List String) (rest : List (List String))
    (h : String) (g : List String → String)
    (hreq : strip h ∉ REQUIRED_COLUMNS)
    (hlen : ∀ r ∈ rest, r ≠ [] → r.length = headerRow.length) :
    analyze ((headerRow ++ [h]) :: rest.map (fun r => if r.isEmpty then r else r ++ [g r]))
      = analyze (headerRow :: rest) := by
  have hh : headersOf (headerRow ++ [h]) = headersOf headerRow ++ [strip h] := by
    simp [headersOf]
  have hforall :
      List.Forall₂ (fun r1 r2 => ∀ f ∈ REQUIRED_COLUMNS, r1 f = r2 f)
        (rowsOf (headersOf headerRow ++ [strip h])
          (rest.map (fun r => if r.isEmpty then r else r ++ [g r])))
        (rowsOf (headersOf headerRow) rest) := by
    rw [rowsOf, rowsOf, dataRowsOf_map_ext]
    rw [show ((dataRowsOf rest).map (fun r => if r.isEmpty then r else r ++ [g r])).map
          (dictRow (headersOf headerRow ++ [strip h]))
        = (dataRowsOf rest).map (fun r =>
            dictRow (headersOf headerRow ++ [strip h])
              (if r.isEmpty then r else r ++ [g r])) from by
      rw [List.map_map]
      rfl]
    apply forall₂_map_map
    intro r hr
    intro f hf
    have hrne : r ≠ [] := by
      have := (List.mem_filter.mp hr).2
      intro he
      rw [he] at this
      simp at this
    have hrlen : r.length = (headersOf headerRow).length := by
      rw [headersOf, List.length_map]
      exact hlen r (List.mem_of_mem_filter hr) hrne
    have hfne : f ≠ strip h := fun he => hreq (he ▸ hf)
    rw [show (if r.isEmpty then r else r ++ [g r]) = r ++ [g r] from by
      cases r with
      | nil => exact absurd rfl hrne
      | cons x xs => rfl]
    exact dictRow_append _ _ _ _ hrlen f hfne
  rw [analyze, analyze, hh, missingOf_append_extra _ _ hreq]
  by_cases hm : missingOf (headersOf headerRow) ≠ []
  · rw [if_pos hm, if_pos hm]
  · rw [if_neg hm, if_neg hm, dataRowsOf_map_ext]
    by_cases hd : dataRowsOf rest = []
    · rw [if_pos (by rw [hd]; rfl), if_pos hd]
    · rw [if_neg (fun hc => hd (List.map_eq_nil_iff.mp hc)), if_neg hd]
      rw [collectErrors_congr _ _ 2 ?hfa, mapScoreRow_congr _ _ ?hfa]
      case hfa =>
        rw [rowsOf, dataRowsOf_map_ext] at hforall
        rw [rowsOf, dataRowsOf_map_ext]
        exact hforall

/-- C7: a header set missing any required column makes `analyze` fail with
the message listing exactly the missing names in sorted (code-point)
alphabetical order — `sortStrings` output is sorted, third conjunct — and
no scoring happens; appending an extra non-required column (header plus one
cell per non-blank data row) never causes a failure and leaves the result
unchanged. -/
theorem c7_columns :
    (∀ headerRow rest, missingOf (headersOf headerRow) ≠ [] →
      analyze (headerRow :: rest)
        = .failure ("Missing required columns: "
            ++ String.intercalate (", ") (sortStrings (missingOf (headersOf headerRow)))
            ++ ". Required columns are: Cost Score, Effort Score, Impact Score, Project Name, Urgency Score."))
    ∧ (∀ l : List String, List.Pairwise (fun a b => strLt b a = false) (sortStrings l))
    ∧ (∀ headerRow rest (h : String) (g : List String → String),
        strip h ∉ REQUIRED_COLUMNS →
        (∀ r ∈ rest, r ≠ [] → r.length = headerRow.length) →
        analyze ((headerRow ++ [h]) :: rest.map (fun r => if r.isEmpty then r else r ++ [g r]))
          = analyze (headerRow :: rest)) := by
  refine ⟨?_, sortStrings_pairwise, analyze_extra_column⟩
  intro headerRow rest hm
  rw [analyze, if_pos hm, missingMsg_eq]

theorem c7_columns_witness :
    analyze [["Project Name", "Impact Score", "Urgency Score"], ["A", "5", "5"]]
      = .failure ("Missing required columns: "
          ++ String.intercalate (", ")
            (sortStrings (missingOf (headersOf ["Project Name", "Impact Score", "Urgency Score"])))
          ++ ". Required columns are: Cost Score, Effort Score, Impact Score, Project Name, Urgency Score.")
    ∧ analyze ((["Project Name", "Impact Score", "Urgency Score", "Effort Score", "Cost Score"]
          ++ ["Notes"])
        :: [["A", "5", "5", "1", "1"]].map
          (fun r => if r.isEmpty then r else r ++ [(fun _ => "extra") r]))
      = analyze (["Project Name", "Impact Score", "Urgency Score", "Effort Score", "Cost Score"]
          :: [["A", "5", "5", "1", "1"]]) :=
  ⟨c7_columns.1 ["Project Name", "Impact Score", "Urgency Score"] [["A", "5", "5"]] (by decide),
    c7_columns.2.2 ["Project Name", "Impact Score", "Urgency Score", "Effort Score", "Cost Score"]
      [["A", "5", "5", "1", "1"]] "Notes" (fun _ => "extra") (by decide) (by decide)⟩
